import Mathlib

/-!
Verification of the flamaster account/core resource layer.

Shallow embedding of:
  * `flamaster/core/decorators.py` — `api_resource`, `multilingual`
    (`create_property` getter/setter), `method_wrapper`;
  * `flamaster/account/api.py` — `SessionResource` (`post`, `put`, `delete`,
    `_authenticate`), `ProfileResource` (`put` validation pipeline,
    `_cmp_pwds`, `_change_role`, `serialize`), `BankAccountResource`
    (`get_object`), `CustomerResource` (`put`).

Python dicts that travel through the handlers are modelled as association
lists; ORM tables as lists of records; the session as an association list
from string keys to values.  Exceptions are modelled explicitly: trafaret
`DataError` carries a field→message mapping, `abort(status)` carries the
HTTP status, and any other unhandled Python exception is a separate
constructor.
-/

namespace Flamaster

/-- HTTP status constants used by the handlers (the `http` module of the
repository is referenced but standard; values are the usual HTTP codes). -/
def OK : Nat := 200

def CREATED : Nat := 201

def ACCEPTED : Nat := 202

def NO_CONTENT : Nat := 204

def BAD_REQUEST : Nat := 400

def UNAUTHORIZED : Nat := 401

def FORBIDDEN : Nat := 403

def NOT_FOUND : Nat := 404

/-- Result of running a piece of Python code: a normal value, a trafaret
`DataError` (field → message), a Flask `abort(status)`, or any other
unhandled exception (e.g. `KeyError`, `AttributeError`). -/
inductive PyResult (α : Type) where
  | ok (a : α)
  | dataError (e : List (String × String))
  | aborted (status : Nat)
  | exn
  deriving Repr, DecidableEq

/-! ## Multilingual field overlay (`core/decorators.py`, `multilingual`)

`create_property(cls, localized, columns, field)` installs, for one text
column `field`, a getter and a setter on the parent class.  One shadow row
holds `(parent_id, locale, value)`; `value` models the localized text
column, which is nullable (`Option String`). -/

structure LocalizedRow where
  parent_id : Nat
  locale : String
  value : Option String
  deriving Repr, DecidableEq

/-- `localized.query.filter_by(parent_id=pid, locale=lang).first()`. -/
def localizedFirst (tbl : List LocalizedRow) (pid : Nat) (lang : String) :
    Option LocalizedRow :=
  tbl.find? (fun r => r.parent_id = pid && r.locale = lang)

/-- The getter of `create_property`:
`instance = localized.query.filter_by(parent_id=self.id, locale=lang).first()`
then `return instance and getattr(instance, field) or None`.
The Python `and`/`or` chain yields `None` whenever the row is missing, the
column is NULL, or the stored string is falsy (the empty string). -/
def localizedGet (tbl : List LocalizedRow) (pid : Nat) (lang : String) :
    Option String :=
  match localizedFirst tbl pid lang with
  | none => none
  | some r =>
    match r.value with
    | none => none
    | some v => if v = "" then none else some v

/-- The setter of `create_property`:
`from_db = localized.query.filter_by(parent_id=self.id, locale=lang).first()`;
`instance = from_db or localized(parent=self, locale=lang)`;
`setattr(instance, field, value); instance.save()`.
When a row for `(parent, locale)` exists its column is overwritten in
place; otherwise a fresh row is inserted. -/
def localizedSet (tbl : List LocalizedRow) (pid : Nat) (lang : String)
    (v : Option String) : List LocalizedRow :=
  match tbl with
  | [] => [⟨pid, lang, v⟩]
  | r :: rs =>
    if r.parent_id = pid && r.locale = lang then
      { r with value := v } :: rs
    else
      r :: localizedSet rs pid lang v

/-- At most one shadow row per `(parent_id, locale)` pair. -/
def localizedNoDup (tbl : List LocalizedRow) : Prop :=
  tbl.Pairwise (fun a b => ¬(a.parent_id = b.parent_id ∧ a.locale = b.locale))

theorem localizedSet_cons_pos (a : LocalizedRow) (as : List LocalizedRow)
    (pid : Nat) (lang : String) (v : Option String)
    (h : (a.parent_id = pid && a.locale = lang) = true) :
    localizedSet (a :: as) pid lang v = { a with value := v } :: as := by
  simp [localizedSet, h]

theorem localizedSet_cons_neg (a : LocalizedRow) (as : List LocalizedRow)
    (pid : Nat) (lang : String) (v : Option String)
    (h : (a.parent_id = pid && a.locale = lang) = false) :
    localizedSet (a :: as) pid lang v = a :: localizedSet as pid lang v := by
  simp [localizedSet, h]

theorem localizedFirst_cons (a : LocalizedRow) (as : List LocalizedRow)
    (pid : Nat) (lang : String) :
    localizedFirst (a :: as) pid lang =
      if a.parent_id = pid && a.locale = lang then some a
      else localizedFirst as pid lang := by
  simp only [localizedFirst, List.find?_cons]
  cases h : (a.parent_id = pid && a.locale = lang) <;> simp [h]

theorem localizedSet_eq_of_found (tbl : List LocalizedRow) (pid : Nat)
    (lang : String) (v : Option String) (r : LocalizedRow)
    (h : localizedFirst tbl pid lang = some r) :
    (localizedSet tbl pid lang v).length = tbl.length := by
  induction tbl with
  | nil => simp [localizedFirst] at h
  | cons a as ih =>
    by_cases ha : a.parent_id = pid && a.locale = lang
    · simp [localizedSet, ha]
    · simp only [localizedFirst, List.find?] at h
      rw [Bool.not_eq_true] at ha
      simp only [ha] at h
      simp only [localizedSet, ha, Bool.false_eq_true, if_false, List.length_cons]
      exact congrArg Nat.succ (ih h)

theorem localizedSet_len_of_not_found (tbl : List LocalizedRow) (pid : Nat)
    (lang : String) (v : Option String)
    (h : localizedFirst tbl pid lang = none) :
    (localizedSet tbl pid lang v).length = tbl.length + 1 := by
  induction tbl with
  | nil => simp [localizedSet]
  | cons a as ih =>
    simp only [localizedFirst, List.find?] at h
    cases ha : (a.parent_id = pid && a.locale = lang) with
    | true => simp [ha] at h
    | false =>
      simp only [ha] at h
      simp only [localizedSet, ha, Bool.false_eq_true, if_false, List.length_cons]
      exact congrArg Nat.succ (ih h)

theorem localizedSet_mem (tbl : List LocalizedRow) (pid : Nat) (lang : String)
    (v : Option String) (r : LocalizedRow)
    (hr : r ∈ localizedSet tbl pid lang v) :
    r ∈ tbl ∨ (r.parent_id = pid ∧ r.locale = lang) := by
  induction tbl with
  | nil =>
    have hre : r = ⟨pid, lang, v⟩ := by simpa [localizedSet] using hr
    subst hre
    exact Or.inr ⟨rfl, rfl⟩
  | cons a as ih =>
    cases ha : (a.parent_id = pid && a.locale = lang) with
    | true =>
      rw [localizedSet_cons_pos a as pid lang v ha, List.mem_cons] at hr
      rcases hr with hr | hr
      · subst hr
        simp only [Bool.and_eq_true, decide_eq_true_eq] at ha
        exact Or.inr ⟨ha.1, ha.2⟩
      · exact Or.inl (List.mem_cons_of_mem a hr)
    | false =>
      rw [localizedSet_cons_neg a as pid lang v ha, List.mem_cons] at hr
      rcases hr with hr | hr
      · exact Or.inl (by simp [hr])
      · rcases ih hr with h | h
        · exact Or.inl (List.mem_cons_of_mem a h)
        · exact Or.inr h

theorem localizedSet_preserves_noDup (tbl : List LocalizedRow) (pid : Nat)
    (lang : String) (v : Option String) (h : localizedNoDup tbl) :
    localizedNoDup (localizedSet tbl pid lang v) := by
  induction tbl with
  | nil =>
    simp only [localizedSet, localizedNoDup]
    exact List.pairwise_singleton _ _
  | cons a as ih =>
    rw [localizedNoDup, List.pairwise_cons] at h
    obtain ⟨h1, h2⟩ := h
    cases ha : (a.parent_id = pid && a.locale = lang) with
    | true =>
      rw [localizedSet_cons_pos a as pid lang v ha, localizedNoDup,
        List.pairwise_cons]
      exact ⟨fun b hb => h1 b hb, h2⟩
    | false =>
      rw [localizedSet_cons_neg a as pid lang v ha, localizedNoDup,
        List.pairwise_cons]
      refine ⟨fun b hb => ?_, ih h2⟩
      rcases localizedSet_mem as pid lang v b hb with hbm | hbk
      · exact h1 b hbm
      · rintro ⟨hp, hl⟩
        have hna : ¬(a.parent_id = pid ∧ a.locale = lang) := by
          intro hc
          rw [hc.1, hc.2] at ha
          simp at ha
        exact hna ⟨hp.trans hbk.1, hl.trans hbk.2⟩

/-- C4: For every sequence of writes through the localized setter the shadow
table keeps at most one row per `(parent_id, locale)` pair: starting from a
duplicate-free table, one setter call leaves the table duplicate-free,
keeps the row count unchanged when a row for `(parent, locale)` already
exists (in-place update), and grows it by exactly one row when none
exists. -/
theorem C4_localizedSet_unique_row (tbl : List LocalizedRow) (pid : Nat)
    (lang : String) (v : Option String) (h : localizedNoDup tbl) :
    localizedNoDup (localizedSet tbl pid lang v) ∧
    (∀ r, localizedFirst tbl pid lang = some r →
      (localizedSet tbl pid lang v).length = tbl.length) ∧
    (localizedFirst tbl pid lang = none →
      (localizedSet tbl pid lang v).length = tbl.length + 1) := by
  refine ⟨localizedSet_preserves_noDup tbl pid lang v h, ?_, ?_⟩
  · intro r hr
    exact localizedSet_eq_of_found tbl pid lang v r hr
  · intro hr
    exact localizedSet_len_of_not_found tbl pid lang v hr

theorem C4_localizedSet_unique_row_witness :
    localizedNoDup [⟨1, "en", some "x"⟩] ∧
    (localizedNoDup (localizedSet [⟨1, "en", some "x"⟩] 1 "en" (some "y")) ∧
    (∀ r, localizedFirst [⟨1, "en", some "x"⟩] 1 "en" = some r →
      (localizedSet [⟨1, "en", some "x"⟩] 1 "en" (some "y")).length =
        [(⟨1, "en", some "x"⟩ : LocalizedRow)].length) ∧
    (localizedFirst [⟨1, "en", some "x"⟩] 1 "en" = none →
      (localizedSet [⟨1, "en", some "x"⟩] 1 "en" (some "y")).length =
        [(⟨1, "en", some "x"⟩ : LocalizedRow)].length + 1)) :=
  have hnd : localizedNoDup [⟨1, "en", some "x"⟩] :=
    List.pairwise_singleton _ _
  ⟨hnd, C4_localizedSet_unique_row [⟨1, "en", some "x"⟩] 1 "en" (some "y") hnd⟩

/-- C3: the claim states a set/get round trip for every string value; it
fails for the empty string, because the getter uses the Python idiom
`instance and getattr(instance, field) or None`, which collapses a stored
falsy value (the empty string) to `None`.  Setting `""` for
`(parent 1, locale "en")` and reading it back yields `None`, not `""`. -/
theorem C3_roundtrip_counterexample :
    localizedGet (localizedSet [] 1 "en" (some "")) 1 "en" = none ∧
    localizedGet (localizedSet [] 1 "en" (some "")) 1 "en" ≠ some "" := by
  decide

/-- C3 (amended): for every table, parent, locale and NON-EMPTY string
value `v`, setting the localized virtual attribute and reading it back
under the same locale returns `v`. -/
theorem C3_roundtrip_amended (tbl : List LocalizedRow) (pid : Nat)
    (lang : String) (v : String) (hv : v ≠ "") :
    localizedGet (localizedSet tbl pid lang (some v)) pid lang = some v := by
  induction tbl with
  | nil =>
    simp [localizedGet, localizedFirst, localizedSet, List.find?, hv]
  | cons a as ih =>
    cases ha : (a.parent_id = pid && a.locale = lang) with
    | true =>
      rw [localizedSet_cons_pos a as pid lang (some v) ha]
      rw [localizedGet, localizedFirst_cons]
      have hc : (({ a with value := some v } : LocalizedRow).parent_id = pid &&
          ({ a with value := some v } : LocalizedRow).locale = lang) = true := ha
      rw [hc]
      simp [hv]
    | false =>
      rw [localizedSet_cons_neg a as pid lang (some v) ha]
      rw [localizedGet, localizedFirst_cons, ha]
      simp only [Bool.false_eq_true, if_false]
      rw [localizedGet] at ih
      exact ih

theorem C3_roundtrip_amended_witness :
    ("hello" : String) ≠ "" ∧
    localizedGet (localizedSet [] 2 "de" (some "hello")) 2 "de" = some "hello" :=
  ⟨by decide, C3_roundtrip_amended [] 2 "de" "hello" (by decide)⟩

/-! ## Flask session (`flask.session`)

The session is a string-keyed mapping.  Values are naturals (ids) or
strings (identity names, languages). -/

inductive SessVal where
  | nat (n : Nat)
  | str (s : String)
  deriving Repr, DecidableEq

abbrev Session : Type := List (String × SessVal)

def sessionGet (s : Session) (k : String) : Option SessVal :=
  match List.find? (fun p => p.1 = k) s with
  | none => none
  | some p => some p.2

/-- `session.pop(key, None)`: removes the binding for `key` when present
and never raises. -/
def sessionPop (s : Session) (k : String) : Session :=
  List.filter (fun p => p.1 ≠ k) s

def sessionSet (s : Session) (k : String) (v : SessVal) : Session :=
  (k, v) :: sessionPop s k

theorem sessionGet_pop_self (s : Session) (k : String) :
    sessionGet (sessionPop s k) k = none := by
  have h : List.find? (fun p => p.1 = k) (sessionPop s k) = none := by
    rw [List.find?_eq_none]
    intro x hx
    rw [sessionPop, List.mem_filter] at hx
    simpa using hx.2
  simp [sessionGet, h]

theorem sessionGet_pop_other (s : Session) (k q : String) (h : q ≠ k) :
    sessionGet (sessionPop s k) q = sessionGet s q := by
  induction s with
  | nil => rfl
  | cons a as ih =>
    by_cases hak : a.1 = k
    · have h1 : sessionPop (a :: as) k = sessionPop as k := by
        simp [sessionPop, List.filter, hak]
      have h2 : sessionGet (a :: as) q = sessionGet as q := by
        have hne : ¬ a.1 = q := by
          rw [hak]
          exact fun hc => h hc.symm
        simp [sessionGet, List.find?_cons, hne]
      rw [h1, h2, ih]
    · have h1 : sessionPop (a :: as) k = a :: sessionPop as k := by
        simp [sessionPop, List.filter, hak]
      by_cases haq : a.1 = q
      · rw [h1]
        simp [sessionGet, List.find?_cons, haq]
      · rw [h1]
        have hq : (fun p : String × SessVal => p.1 = q) a = false := by
          simp [haq]
        simp only [sessionGet, List.find?_cons, hq] at ih ⊢
        simpa [sessionGet] using ih

/-- `SessionResource.delete` (`account/api.py`): pops the three session
keys, signals `identity_changed` with an `AnonymousIdentity` and calls
`logout_user()` (both act on the auth extension, an external collaborator),
then answers `_get_response()` with status 204 `NO_CONTENT`.  The returned
pair is (session after the handler, HTTP status). -/
def sessionResourceDelete (s : Session) : Session × Nat :=
  (sessionPop (sessionPop (sessionPop s "identity.name") "identity.auth_type")
      "customer_id",
   NO_CONTENT)

/-- C10: `SessionResource.delete` removes exactly the keys
`identity.name`, `identity.auth_type` and `customer_id` from the session,
leaves every other key's binding unchanged, answers 204 `NO_CONTENT`, and
is total (defined for every session, also when the keys are absent). -/
theorem C10_session_delete (s : Session) (k : String) :
    (sessionResourceDelete s).2 = NO_CONTENT ∧
    sessionGet (sessionResourceDelete s).1 "identity.name" = none ∧
    sessionGet (sessionResourceDelete s).1 "identity.auth_type" = none ∧
    sessionGet (sessionResourceDelete s).1 "customer_id" = none ∧
    (k ≠ "identity.name" → k ≠ "identity.auth_type" → k ≠ "customer_id" →
      sessionGet (sessionResourceDelete s).1 k = sessionGet s k) := by
  refine ⟨rfl, ?_, ?_, ?_, ?_⟩
  · rw [sessionResourceDelete]
    rw [sessionGet_pop_other _ _ _ (by decide),
      sessionGet_pop_other _ _ _ (by decide)]
    exact sessionGet_pop_self _ _
  · rw [sessionResourceDelete]
    rw [sessionGet_pop_other _ _ _ (by decide)]
    exact sessionGet_pop_self _ _
  · exact sessionGet_pop_self _ _
  · intro h1 h2 h3
    rw [sessionResourceDelete]
    rw [sessionGet_pop_other _ _ _ h3, sessionGet_pop_other _ _ _ h2,
      sessionGet_pop_other _ _ _ h1]

theorem C10_session_delete_witness :
    (sessionResourceDelete [("user_id", .nat 7)]).2 = NO_CONTENT ∧
    sessionGet (sessionResourceDelete [("user_id", .nat 7)]).1
      "identity.name" = none ∧
    sessionGet (sessionResourceDelete [("user_id", .nat 7)]).1
      "identity.auth_type" = none ∧
    sessionGet (sessionResourceDelete [("user_id", .nat 7)]).1
      "customer_id" = none ∧
    (("user_id" : String) ≠ "identity.name" →
      ("user_id" : String) ≠ "identity.auth_type" →
      ("user_id" : String) ≠ "customer_id" →
      sessionGet (sessionResourceDelete [("user_id", .nat 7)]).1 "user_id" =
        sessionGet [("user_id", .nat 7)] "user_id") :=
  C10_session_delete [("user_id", .nat 7)] "user_id"

/-! ## `api_resource` (`core/decorators.py`)

`api_resource(bp, endpoint, pk_def)` builds the collection URL from the
endpoint, registers the view for `GET`/`POST` on it, and registers the
item URL — the collection URL followed by `<pk>` or `<type:pk>` — for
`GET`/`PUT`/`DELETE`.  A rule is (url, view endpoint, methods); both rules
share the view produced by `resource_class().as_view(endpoint)`. -/

structure UrlRule where
  url : String
  viewEndpoint : String
  methods : List String
  deriving Repr, DecidableEq

/-- The pair of url rules added by `api_resource`; `pkType` models
`pk_def[pk] and pk_def[pk].__name__ or None` (the converter name, `none`
when the pk type is `None`). -/
def apiResource (endpoint pk : String) (pkType : Option String) :
    List UrlRule :=
  let url := "/" ++ endpoint ++ "/"
  let itemUrl :=
    match pkType with
    | none => url ++ ("<" ++ pk ++ ">")
    | some ty => url ++ ("<" ++ ty ++ ":" ++ pk ++ ">")
  [⟨url, endpoint, ["GET", "POST"]⟩,
   ⟨itemUrl, endpoint, ["GET", "PUT", "DELETE"]⟩]

/-- C7: `api_resource` registers exactly two url rules: the collection URL
`/E/` bound to exactly GET and POST, and the item URL — the collection URL
followed by `<pk>` (pk type `None`) or `<type:pk>` (pk type given) — bound
to exactly GET, PUT and DELETE, both dispatching to the same view. -/
theorem C7_api_resource_rules (endpoint pk : String) (pkType : Option String) :
    ∃ collection item : UrlRule,
      apiResource endpoint pk pkType = [collection, item] ∧
      collection.url = "/" ++ endpoint ++ "/" ∧
      collection.methods = ["GET", "POST"] ∧
      item.url = collection.url ++
        (match pkType with
         | none => "<" ++ pk ++ ">"
         | some ty => "<" ++ ty ++ ":" ++ pk ++ ">") ∧
      item.methods = ["GET", "PUT", "DELETE"] ∧
      item.viewEndpoint = collection.viewEndpoint := by
  cases pkType with
  | none => exact ⟨_, _, rfl, rfl, rfl, rfl, rfl, rfl⟩
  | some ty => exact ⟨_, _, rfl, rfl, rfl, rfl, rfl, rfl⟩

/-! ## `ProfileResource._cmp_pwds` (`account/api.py`)

`_cmp_pwds` receives the `KeysSubset('password', 'confirmation')` slice of
the inbound dict: each of the two keys is present or absent.  Its output
is a dict whose values are strings or `DataError` markers. -/

structure PasswordSubset where
  password : Option String
  confirmation : Option String
  deriving Repr, DecidableEq

inductive PwFieldVal where
  | plain (s : String)
  | dataError (msg : String)
  deriving Repr, DecidableEq

/-- `flask.ext.security.utils.encrypt_password`, an external collaborator;
modelled as an injective tagging of the clear text. -/
def encrypt_password (p : String) : String :=
  "encrypted:" ++ p

def pwLenMsg : String :=
  "Passwords should be more than 6 symbols length"

def pwMatchMsg : String :=
  "Passwords doesnt match"

/-- `ProfileResource._cmp_pwds`, line by line: both keys absent → the
(empty) subset is returned unchanged; otherwise `len(value['password'])`
is evaluated — a `KeyError` when `password` is absent; a short password
yields a `DataError` under `password`; then `value['confirmation']` is
read — a `KeyError` when absent; a mismatch yields a `DataError` under
`confirmation`; else the encrypted password is returned. -/
def cmp_pwds (value : PasswordSubset) : PyResult (List (String × PwFieldVal)) :=
  if value.password = none ∧ value.confirmation = none then
    .ok []
  else
    match value.password with
    | none => .exn
    | some p =>
      if p.length < 6 then
        .ok [("password", .dataError pwLenMsg)]
      else
        match value.confirmation with
        | none => .exn
        | some c =>
          if p ≠ c then
            .ok [("confirmation", .dataError pwMatchMsg)]
          else
            .ok [("password", .plain (encrypt_password p))]

/-- C8: the claim says `_cmp_pwds` never raises an unhandled exception for
any input mapping.  It does: with `confirmation` present and `password`
absent, `len(value['password'])` raises `KeyError`. -/
theorem C8_cmp_pwds_counterexample :
    cmp_pwds ⟨none, some "secret1"⟩ = .exn := by
  decide

/-- C8 (amended): `_cmp_pwds` returns the subset unchanged, a field-level
`DataError`, or the encrypted password, except that it raises an unhandled
`KeyError` exactly when `confirmation` is present without `password`, or
`password` of length ≥ 6 is present without `confirmation`. -/
theorem C8_cmp_pwds_amended (value : PasswordSubset) :
    (cmp_pwds value = .exn ↔
      (value.password = none ∧ value.confirmation ≠ none) ∨
      (∃ p, value.password = some p ∧ 6 ≤ p.length ∧
        value.confirmation = none)) ∧
    (∀ e, cmp_pwds value ≠ .dataError e) ∧
    (∀ st, cmp_pwds value ≠ .aborted st) := by
  obtain ⟨pw, cf⟩ := value
  cases pw with
  | none =>
    cases cf with
    | none => simp [cmp_pwds]
    | some c => simp [cmp_pwds]
  | some p =>
    cases cf with
    | none =>
      by_cases hp : p.length < 6
      · simp [cmp_pwds, hp]
      · simp [cmp_pwds, hp]
        omega
    | some c =>
      by_cases hp : p.length < 6
      · simp [cmp_pwds, hp]
      · by_cases hpc : p = c
        · subst hpc
          simp [cmp_pwds, hp]
        · simp [cmp_pwds, hp, hpc]

/-! ## `ProfileResource.serialize` (`account/api.py`)

`serialize` projects a user instance through `as_dict(include, exclude)`
and appends customer/address data.  The claim is about which keys the
output mapping holds, so the embedding tracks the key set.  `UserView`
carries the parts of `g.user` / `instance` the method consults. -/

structure UserView where
  id : Nat
  anonymous : Bool
  superuser : Bool
  hasCustomer : Bool
  hasBilling : Bool
  hasDelivery : Bool
  deriving Repr, DecidableEq

/-- Modelled from the spec: the Address entity's "typed billing/delivery
fields" (its `as_dict()` keys; `Address` and `CRUDMixin.as_dict` are not
under src/); the field list follows `AddressResource.validation`. -/
def addressFieldNames : List String :=
  ["country_id", "apartment", "city", "street", "zip_code",
   "first_name", "last_name", "company", "gender", "phone", "type"]

/-- Modelled from the spec: `CRUDMixin.as_dict(include, exclude)` (not
under src/) "projects a persisted entity to an output mapping with
include/exclude field lists" — its key set is the include list minus the
exclude list. -/
def as_dict_keys (inc exc : List String) : List String :=
  inc.filter (fun f => ¬ exc.contains f)

/-- The `include` list of `ProfileResource.serialize`. -/
def profileIncludeList : List String :=
  ["first_name", "last_name", "created_at", "phone",
   "current_login_at", "active", "billing_address",
   "delivery_address", "logged_at", "is_superuser", "birth_date",
   "fax", "company", "gender", "id"]

/-- `ProfileResource.__add_address_prefix`: `{}` when the address is
absent, else the address keys prefixed with `billing_`/`delivery_`. -/
def addressPrefixedKeys (present : Bool) (pre : String) : List String :=
  if present then addressFieldNames.map (fun k => pre ++ "_" ++ k) else []

/-- Key set of `ProfileResource.serialize(instance)` with caller `g.user`:
`exclude = ['password']`; anonymous caller or instance → plain
`as_dict(include, exclude)`; otherwise `email` is excluded for a foreign
non-superuser caller and included for the user itself or a superuser, and
`shop_id` plus prefixed address keys are appended. -/
def profileSerializeKeys (gUser inst : UserView) : List String :=
  let exc := ["password"]
  let inc := profileIncludeList
  if gUser.anonymous || inst.anonymous then
    as_dict_keys inc exc
  else
    let pair :=
      if gUser.id ≠ inst.id ∧ gUser.superuser = false then
        (inc, exc ++ ["email"])
      else
        (inc ++ ["email"], exc)
    let response := as_dict_keys pair.1 pair.2
    let response :=
      if inst.hasCustomer then response ++ ["shop_id"] else response
    let response := response ++ addressPrefixedKeys inst.hasBilling "billing"
    let response := response ++ addressPrefixedKeys inst.hasDelivery "delivery"
    response

/-- C5: `ProfileResource.serialize` never exposes `password`, and when
both the caller and the serialized instance are non-anonymous, `email` is
present in the output iff the caller is the user itself or a superuser. -/
theorem C5_profile_serialize (gUser inst : UserView) :
    "password" ∉ profileSerializeKeys gUser inst ∧
    (gUser.anonymous = false → inst.anonymous = false →
      ("email" ∈ profileSerializeKeys gUser inst ↔
        gUser.id = inst.id ∨ gUser.superuser = true)) := by
  by_cases hanon : (gUser.anonymous || inst.anonymous) = true
  · constructor
    · simp only [profileSerializeKeys, hanon, if_true]
      decide
    · intro h1 h2
      rw [h1, h2] at hanon
      simp at hanon
  · have hanon' : (gUser.anonymous || inst.anonymous) = false := by
      simpa using hanon
    by_cases hcond : gUser.id ≠ inst.id ∧ gUser.superuser = false
    · have hne : ¬(gUser.id = inst.id ∨ gUser.superuser = true) := by
        rintro (h | h)
        · exact hcond.1 h
        · rw [hcond.2] at h
          exact Bool.false_ne_true h
      have hK : profileSerializeKeys gUser inst =
          (if inst.hasCustomer then
            as_dict_keys profileIncludeList (["password"] ++ ["email"]) ++
              ["shop_id"]
          else
            as_dict_keys profileIncludeList (["password"] ++ ["email"])) ++
          addressPrefixedKeys inst.hasBilling "billing" ++
          addressPrefixedKeys inst.hasDelivery "delivery" := by
        rw [profileSerializeKeys]
        rw [hanon']
        simp only [Bool.false_eq_true, if_false]
        rw [if_pos hcond]
      rw [hK, iff_false_intro hne, iff_false]
      cases inst.hasCustomer <;> cases inst.hasBilling <;>
        cases inst.hasDelivery <;>
        exact ⟨by decide, fun _ _ => by decide⟩
    · have hyes : gUser.id = inst.id ∨ gUser.superuser = true := by
        by_contra hno
        push_neg at hno
        exact hcond ⟨hno.1, by simpa using hno.2⟩
      have hK : profileSerializeKeys gUser inst =
          (if inst.hasCustomer then
            as_dict_keys (profileIncludeList ++ ["email"]) ["password"] ++
              ["shop_id"]
          else
            as_dict_keys (profileIncludeList ++ ["email"]) ["password"]) ++
          addressPrefixedKeys inst.hasBilling "billing" ++
          addressPrefixedKeys inst.hasDelivery "delivery" := by
        rw [profileSerializeKeys]
        rw [hanon']
        simp only [Bool.false_eq_true, if_false]
        rw [if_neg hcond]
      rw [hK, iff_true_intro hyes, iff_true]
      cases inst.hasCustomer <;> cases inst.hasBilling <;>
        cases inst.hasDelivery <;>
        exact ⟨by decide, fun _ _ => by decide⟩

/-! ## `BankAccountResource.get_object` (`account/api.py`) -/

structure BankAccount where
  id : Nat
  user_id : Nat
  deriving Repr, DecidableEq

/-- Modelled from the spec: `BankAccount.check_owner(user)` (models.py,
not under src/) — the BankAccount has an owner (`user_id`); the check
holds iff the current user is that owner. -/
def check_owner (ba : BankAccount) (uid : Nat) : Bool :=
  ba.user_id = uid

/-- Modelled from the spec: `ModelResource.get_object`
(core/resources.py, not under src/) fetches the instance by primary key
and aborts 404 when it does not exist (`get_or_404`). -/
def modelResourceGetObject (accounts : List BankAccount) (id : Nat) :
    PyResult BankAccount :=
  match accounts.find? (fun a => a.id = id) with
  | none => .aborted NOT_FOUND
  | some a => .ok a

/-- `BankAccountResource.get_object`: fetch through the base resource,
return the instance when `check_owner(current_user)` holds or the current
user is a superuser, else `abort(http.UNAUTHORIZED)`. -/
def bankAccountGetObject (accounts : List BankAccount) (uid : Nat)
    (superuser : Bool) (id : Nat) : PyResult BankAccount :=
  match modelResourceGetObject accounts id with
  | .ok ba =>
    if check_owner ba uid || superuser then .ok ba
    else .aborted UNAUTHORIZED
  | .dataError e => .dataError e
  | .aborted s => .aborted s
  | .exn => .exn

/-- C9: for an existing bank account, `BankAccountResource.get_object`
returns the instance iff the current user owns it or is a superuser, and
aborts with 401 UNAUTHORIZED for every other caller. -/
theorem C9_bank_account_get_object (accounts : List BankAccount)
    (uid : Nat) (superuser : Bool) (id : Nat) (ba : BankAccount)
    (hfind : accounts.find? (fun a => a.id = id) = some ba) :
    (bankAccountGetObject accounts uid superuser id = .ok ba ↔
      (check_owner ba uid || superuser) = true) ∧
    ((check_owner ba uid || superuser) = false →
      bankAccountGetObject accounts uid superuser id =
        .aborted UNAUTHORIZED) := by
  constructor
  · constructor
    · intro h
      by_contra hc
      rw [Bool.not_eq_true] at hc
      simp [bankAccountGetObject, modelResourceGetObject, hfind, hc] at h
    · intro h
      simp [bankAccountGetObject, modelResourceGetObject, hfind, h]
  · intro h
    simp [bankAccountGetObject, modelResourceGetObject, hfind, h]

theorem C9_bank_account_get_object_witness :
    ((bankAccountGetObject [⟨3, 7⟩] 9 false 3 = .ok ⟨3, 7⟩ ↔
      (check_owner ⟨3, 7⟩ 9 || false) = true) ∧
    ((check_owner ⟨3, 7⟩ 9 || false) = false →
      bankAccountGetObject [⟨3, 7⟩] 9 false 3 = .aborted UNAUTHORIZED)) :=
  C9_bank_account_get_object [⟨3, 7⟩] 9 false 3 ⟨3, 7⟩ (by decide)

/-! ## Inbound JSON and the SessionResource (`account/api.py`)

JSON values carried by request bodies: strings, integers, booleans,
`null`.  A JSON object is an association list. -/

inductive JVal where
  | str (s : String)
  | nat (n : Nat)
  | bool (b : Bool)
  | null
  deriving Repr, DecidableEq

abbrev JObj : Type := List (String × JVal)

def jget (d : JObj) (k : String) : Option JVal :=
  match List.find? (fun p => p.1 = k) d with
  | none => none
  | some p => some p.2

/-- Python `dict.get(k)` for the string-or-null fields: both an absent key
and a JSON `null` value come back as `None`. -/
def pyGetStr (d : JObj) (k : String) : Option String :=
  match jget d k with
  | some (JVal.str s) => some s
  | _ => none

/-- `DataError.as_dict()`: the structured field → message mapping, as a
JSON object. -/
def asDictResp (e : List (String × String)) : JObj :=
  e.map (fun p => (p.1, JVal.str p.2))

/-- Modelled from the spec: `t.Email` (trafaret, external): a string
containing an `@`. -/
def isEmailVal : JVal → Bool
  | .str s => s.data.contains '@' && s ≠ ""
  | _ => false

/-- `t.Or(t.String(allow_blank=True), t.Null)`. -/
def isStrOrNull : JVal → Bool
  | .str _ => true
  | .null => true
  | _ => false

def isBoolVal : JVal → Bool
  | .bool _ => true
  | _ => false

def emailErrMsg : String := "value is not a valid email address"

def strErrMsg : String := "value is not a string"

def boolErrMsg : String := "value should be True or False"

def sessionValidationKeys : List String :=
  ["email", "password", "confirm_password", "token", "reset"]

/-- `SessionResource.validation.check`: every key optional; `email` must
look like an email, `password`/`confirm_password`/`token` must be a string
or null, `reset` a boolean; extra keys are ignored (dropped).  Failing
keys are collected into one `DataError` mapping. -/
def sessionValidationCheck (d : JObj) : PyResult JObj :=
  let errs :=
    (match jget d "email" with
     | some v => if isEmailVal v then [] else [("email", emailErrMsg)]
     | none => []) ++
    (match jget d "password" with
     | some v => if isStrOrNull v then [] else [("password", strErrMsg)]
     | none => []) ++
    (match jget d "confirm_password" with
     | some v =>
       if isStrOrNull v then [] else [("confirm_password", strErrMsg)]
     | none => []) ++
    (match jget d "token" with
     | some v => if isStrOrNull v then [] else [("token", strErrMsg)]
     | none => []) ++
    (match jget d "reset" with
     | some v => if isBoolVal v then [] else [("reset", boolErrMsg)]
     | none => [])
  match errs with
  | [] => .ok (d.filter (fun p => sessionValidationKeys.contains p.1))
  | _ => .dataError errs

/-- Response bodies the session/customer handlers can produce: an error
mapping (`DataError.as_dict()`), the `_get_response()` session payload,
the `{'status': 'success'}` payload, or a serialized object. -/
inductive RespBody where
  | errors (e : List (String × String))
  | sessionInfo
  | success
  | obj (o : JObj)
  deriving Repr, DecidableEq

structure UserRec where
  id : Nat
  email : String
  password : Option String
  active : Bool
  confirmed : Bool
  deriving Repr, DecidableEq

structure CustomerRec where
  id : Nat
  user_id : Option Nat
  deriving Repr, DecidableEq

structure CartRec where
  id : Nat
  customer_id : Nat
  deriving Repr, DecidableEq

/-- The state a `SessionResource` request runs against: the user,
customer and cart tables, the session, the logged-in user
(`current_user`, `none` for anonymous) and the valid password-reset
tokens (token → user id; `reset_password_token_status`, an external
collaborator, reports any other token expired or invalid). -/
structure AuthSt where
  users : List UserRec
  customers : List CustomerRec
  carts : List CartRec
  session : Session
  currentUserId : Option Nat
  resetTokens : List (String × Nat)
  deriving Repr, DecidableEq

/-- `_security.datastore.find_user(email=...)` over the user table. -/
def findUserByEmail (users : List UserRec) (em : String) : Option UserRec :=
  users.find? (fun u => u.email = em)

/-- `flask.ext.security.utils.verify_password`, an external collaborator:
holds iff a clear text was given and matches the stored credential. -/
def verify_password (given : Option String) (stored : Option String) : Bool :=
  match given, stored with
  | some g, some s => g = s
  | _, _ => false

/-- `user.customer`: the ORM relationship — the customer row owned by the
user. -/
def userCustomer (customers : List CustomerRec) (uid : Nat) :
    Option CustomerRec :=
  customers.find? (fun c => c.user_id = some uid)

def cantFindMsg : String := "Cant find anyone with this credentials"

def confirmMsg : String := "You must confirm the email"

def blockedMsg : String := "You are blocked by the administrator"

def wrongPwdMsg : String := "Wrong password"

/-- `SessionResource._authenticate(data_dict)`:
`data_dict['email']` (KeyError when absent) → `find_user` →
confirmation/active checks → `verify_password` → `login_user` → merge of
the anonymous customer referenced by `session['customer_id']` into
`user.customer` (cart reassignment + deletion) → `session['customer_id'] =
user.customer.id`.  `user.customer` being `None` on the success path is an
`AttributeError`. -/
def authenticate (st : AuthSt) (data : JObj) : PyResult AuthSt :=
  match jget data "email" with
  | none => .exn
  | some (JVal.str em) =>
    match findUserByEmail st.users em with
    | none => .dataError [("email", cantFindMsg)]
    | some user =>
      if !user.confirmed then .dataError [("email", confirmMsg)]
      else if !user.active then .dataError [("email", blockedMsg)]
      else if verify_password (pyGetStr data "password") user.password then
        let st1 : AuthSt := { st with currentUserId := some user.id }
        match userCustomer st1.customers user.id with
        | none => .exn
        | some uc =>
          let st2 : AuthSt :=
            match sessionGet st1.session "customer_id" with
            | some (SessVal.nat cid) =>
              match st1.customers.find? (fun c => c.id = cid) with
              | some c =>
                if c.user_id = none then
                  { st1 with
                    carts := st1.carts.map (fun k =>
                      if k.customer_id = c.id then
                        { k with customer_id := uc.id }
                      else k),
                    customers :=
                      st1.customers.filter (fun x => ¬ x.id = c.id) }
                else st1
              | none => st1
            | _ => st1
          .ok { st2 with
                session := sessionSet st2.session "customer_id"
                  (.nat uc.id) }
      else .dataError [("password", wrongPwdMsg)]
  | some _ => .dataError [("email", cantFindMsg)]

def emailTakenMsg : String := "This email is already taken"

def emailNotFoundMsg : String := "This email is not found"

def wrongTokenMsg : String := "Wrong token"

def pwNoMatchMsg : String := "Passwords do not match"

/-- `SessionResource.post`: clean the body; an already-taken email raises
a `DataError`; otherwise `register_user` (external) and the session
payload with 201.  Every `DataError` is answered as its `as_dict()` with
400.  `data['email']` raises a KeyError when the (optional) key is
absent. -/
def sessionPost (takenEmails : List String) (reqJson : JObj) :
    PyResult (RespBody × Nat) :=
  match sessionValidationCheck reqJson with
  | .dataError e => .ok (.errors e, BAD_REQUEST)
  | .aborted s => .aborted s
  | .exn => .exn
  | .ok data =>
    match jget data "email" with
    | none => .exn
    | some (JVal.str em) =>
      if takenEmails.contains em then
        .ok (.errors [("email", emailTakenMsg)], BAD_REQUEST)
      else
        .ok (.sessionInfo, CREATED)
    | some _ => .ok (.sessionInfo, CREATED)

/-- `SessionResource.__change_password`: token status → password
comparison → `user.update(password=...)` + `login_user` → 202. -/
def changePassword (st : AuthSt) (password confirm_password : Option String)
    (token : Option String) : PyResult (RespBody × Nat × AuthSt) :=
  match token with
  | none => .exn
  | some tok =>
    match st.resetTokens.find? (fun p => p.1 = tok) with
    | none => .ok (.errors [("token", wrongTokenMsg)], BAD_REQUEST, st)
    | some tp =>
      match st.users.find? (fun u => u.id = tp.2) with
      | none => .exn
      | some user =>
        if password ≠ confirm_password then
          .ok (.errors [("confirm_password", pwNoMatchMsg)], BAD_REQUEST, st)
        else
          .ok (.success, ACCEPTED,
            { st with
              users := st.users.map (fun u =>
                if u.id = user.id then { u with password := password }
                else u),
              currentUserId := some user.id })

/-- `SessionResource.__reset_password`: a user with the email exists →
send the reset mail (external) and 202; else 404. -/
def resetPassword (st : AuthSt) (em : String) :
    PyResult (RespBody × Nat × AuthSt) :=
  match st.users.filter (fun u => u.email = em) with
  | [] => .ok (.errors [("email", emailNotFoundMsg)], NOT_FOUND, st)
  | _ :: _ => .ok (.success, ACCEPTED, st)

/-- `cleaned_data.pop('reset', False)` is truthy. -/
def resetTruthy (cleaned : JObj) : Bool :=
  match jget cleaned "reset" with
  | some (JVal.bool b) => b
  | _ => false

/-- `SessionResource.put`: clean (a `DataError` is answered as its
`as_dict()` with 400) → password-change branch when `confirm_password`
and `token` are both non-None → reset branch (`cleaned_data['email']`
raises KeyError when absent) → `_authenticate`, answering a `DataError`
with 400 and the session payload with 202 otherwise. -/
def sessionPut (st : AuthSt) (reqJson : JObj) :
    PyResult (RespBody × Nat × AuthSt) :=
  match sessionValidationCheck reqJson with
  | .dataError e => .ok (.errors e, BAD_REQUEST, st)
  | .aborted s => .aborted s
  | .exn => .exn
  | .ok cleaned =>
    let password := pyGetStr cleaned "password"
    let confirm_password := pyGetStr cleaned "confirm_password"
    let token := pyGetStr cleaned "token"
    if confirm_password ≠ none ∧ token ≠ none then
      changePassword st password confirm_password token
    else if resetTruthy cleaned then
      match jget cleaned "email" with
      | none => .exn
      | some (JVal.str em) => resetPassword st em
      | some _ => resetPassword st ""
    else
      match authenticate st cleaned with
      | .ok st1 => .ok (.sessionInfo, ACCEPTED, st1)
      | .dataError e => .ok (.errors e, BAD_REQUEST, st)
      | .aborted s => .aborted s
      | .exn => .exn

/-- `method_wrapper(http_status)` around a resource method:
`request.json or abort(BAD_REQUEST)`, then the method; a `DataError` is
answered as its `as_dict()` with 400, a normal result with the wrapper's
status. -/
def method_wrapper (status : Nat) (meth : JObj → PyResult JObj)
    (reqJson : Option JObj) : PyResult (JObj × Nat) :=
  match reqJson with
  | none => .aborted BAD_REQUEST
  | some d =>
    match meth d with
    | .ok r => .ok (r, status)
    | .dataError e => .ok (asDictResp e, BAD_REQUEST)
    | .aborted s => .aborted s
    | .exn => .exn

theorem sessionGet_set_self (s : Session) (k : String) (v : SessVal) :
    sessionGet (sessionSet s k v) k = some v := by
  simp [sessionGet, sessionSet, List.find?_cons]

theorem filter_filter_of_imp {α : Type} (p q : α → Bool) (l : List α)
    (h : ∀ x ∈ l, p x = true → q x = true) :
    (l.filter q).filter p = l.filter p := by
  induction l with
  | nil => rfl
  | cons a as ih =>
    have ih' := ih (fun x hx => h x (List.mem_cons_of_mem a hx))
    cases hpa : p a with
    | true =>
      have hqa := h a (List.mem_cons_self a as) hpa
      simp [List.filter, hpa, hqa, ih']
    | false =>
      cases hqa : q a with
      | true => simp [List.filter, hpa, hqa, ih']
      | false => simp [List.filter, hpa, hqa, ih']

theorem customer_eq_of_id_eq {l : List CustomerRec}
    (hpk : l.Pairwise (fun a b => a.id ≠ b.id)) {x c : CustomerRec}
    (hx : x ∈ l) (hc : c ∈ l) (hid : x.id = c.id) : x = c := by
  induction l with
  | nil => cases hx
  | cons a as ih =>
    rw [List.pairwise_cons] at hpk
    rcases List.mem_cons.mp hx with rfl | hx'
    · rcases List.mem_cons.mp hc with rfl | hc'
      · rfl
      · exact absurd hid (hpk.1 c hc')
    · rcases List.mem_cons.mp hc with rfl | hc'
      · exact absurd hid.symm (hpk.1 x hx')
      · exact ih hpk.2 hx' hc'

/-- C1: on every successful authentication where the session holds a
`customer_id` of an existing anonymous customer (one with `user_id`
`None`), `_authenticate` reassigns that customer's cart rows to the
user's own customer, deletes the anonymous customer, and stores the
user's customer id in `session['customer_id']`; with distinct customer
primary keys, a user owning exactly one customer before still owns
exactly one after. -/
theorem C1_authenticate_merges_anonymous_customer
    (st : AuthSt) (data : JObj) (em : String) (user : UserRec)
    (uc c : CustomerRec) (cid : Nat)
    (hemail : jget data "email" = some (JVal.str em))
    (hfind : findUserByEmail st.users em = some user)
    (hconf : user.confirmed = true)
    (hact : user.active = true)
    (hpwd : verify_password (pyGetStr data "password") user.password = true)
    (huc : userCustomer st.customers user.id = some uc)
    (hsess : sessionGet st.session "customer_id" = some (SessVal.nat cid))
    (hcfind : st.customers.find? (fun x => x.id = cid) = some c)
    (hanon : c.user_id = none)
    (hpk : st.customers.Pairwise (fun a b => a.id ≠ b.id)) :
    ∃ st' : AuthSt,
      authenticate st data = .ok st' ∧
      st'.carts = st.carts.map (fun k =>
        if k.customer_id = c.id then { k with customer_id := uc.id }
        else k) ∧
      st'.customers = st.customers.filter (fun x => ¬ x.id = c.id) ∧
      (∀ x ∈ st'.customers, x.id ≠ c.id) ∧
      sessionGet st'.session "customer_id" = some (SessVal.nat uc.id) ∧
      ((st.customers.filter (fun x => x.user_id = some user.id)).length = 1 →
        (st'.customers.filter
          (fun x => x.user_id = some user.id)).length = 1) := by
  have hcmem : c ∈ st.customers := List.mem_of_find?_eq_some hcfind
  refine ⟨⟨st.users,
      st.customers.filter (fun x => ¬ x.id = c.id),
      st.carts.map (fun k =>
        if k.customer_id = c.id then { k with customer_id := uc.id } else k),
      sessionSet st.session "customer_id" (SessVal.nat uc.id),
      some user.id, st.resetTokens⟩, ?_, rfl, rfl, ?_, ?_, ?_⟩
  · rw [authenticate, hemail]
    have hcust1 : userCustomer
        ({ st with currentUserId := some user.id } : AuthSt).customers
        user.id = some uc := huc
    have hsess1 : sessionGet
        ({ st with currentUserId := some user.id } : AuthSt).session
        "customer_id" = some (SessVal.nat cid) := hsess
    have hcfind1 : ({ st with currentUserId := some user.id } :
        AuthSt).customers.find? (fun x => x.id = cid) = some c := hcfind
    simp only [hfind, hconf, hact, hpwd, Bool.not_true, Bool.false_eq_true,
      if_false, if_true, hcust1, hsess1, hcfind1, hanon]
  · intro x hx
    rw [List.mem_filter] at hx
    simpa using hx.2
  · exact sessionGet_set_self st.session "customer_id" (SessVal.nat uc.id)
  · intro hone
    have himp : ∀ x ∈ st.customers,
        (decide (x.user_id = some user.id)) = true →
        (decide (¬ x.id = c.id)) = true := by
      intro x hx hx1
      rw [decide_eq_true_eq] at hx1
      rw [decide_eq_true_eq]
      intro hid
      have hxc : x = c := customer_eq_of_id_eq hpk hx hcmem hid
      rw [hxc, hanon] at hx1
      cases hx1
    calc ((st.customers.filter (fun x => ¬ x.id = c.id)).filter
            (fun x => x.user_id = some user.id)).length
        = (st.customers.filter
            (fun x => x.user_id = some user.id)).length := by
          rw [filter_filter_of_imp _ _ _ himp]
      _ = 1 := hone

theorem C1_authenticate_witness :
    ∃ st' : AuthSt,
      authenticate
        ⟨[⟨1, "a@b", some "pw", true, true⟩],
         [⟨10, some 1⟩, ⟨20, none⟩], [⟨100, 20⟩],
         [("customer_id", SessVal.nat 20)], none, []⟩
        [("email", JVal.str "a@b"), ("password", JVal.str "pw")] =
          .ok st' ∧
      st'.carts = [(⟨100, 20⟩ : CartRec)].map (fun k =>
        if k.customer_id = (⟨20, none⟩ : CustomerRec).id then
          { k with customer_id := (⟨10, some 1⟩ : CustomerRec).id }
        else k) ∧
      st'.customers = [(⟨10, some 1⟩ : CustomerRec), ⟨20, none⟩].filter
        (fun x => ¬ x.id = (⟨20, none⟩ : CustomerRec).id) ∧
      (∀ x ∈ st'.customers, x.id ≠ (⟨20, none⟩ : CustomerRec).id) ∧
      sessionGet st'.session "customer_id" =
        some (SessVal.nat (⟨10, some 1⟩ : CustomerRec).id) ∧
      (([(⟨10, some 1⟩ : CustomerRec), ⟨20, none⟩].filter
          (fun x => x.user_id = some 1)).length = 1 →
        (st'.customers.filter (fun x => x.user_id = some 1)).length = 1) :=
  C1_authenticate_merges_anonymous_customer
    ⟨[⟨1, "a@b", some "pw", true, true⟩],
     [⟨10, some 1⟩, ⟨20, none⟩], [⟨100, 20⟩],
     [("customer_id", SessVal.nat 20)], none, []⟩
    [("email", JVal.str "a@b"), ("password", JVal.str "pw")]
    "a@b" ⟨1, "a@b", some "pw", true, true⟩ ⟨10, some 1⟩ ⟨20, none⟩ 20
    (by decide) (by decide) rfl rfl (by decide) (by decide) (by decide)
    (by decide) rfl (by decide)

/-- C6: whenever inbound JSON fails the declarative validation schema,
the response body is the structured field-level mapping
(`DataError.as_dict()`) and the status is 400 BAD_REQUEST — for a handler
wrapped by `method_wrapper`, for `SessionResource.post`, and for
`SessionResource.put` (which also leaves the state untouched). -/
theorem C6_validation_error_response (status : Nat)
    (meth : JObj → PyResult JObj) (d : JObj) (e : List (String × String))
    (takenEmails : List String) (st : AuthSt)
    (hmeth : meth d = .dataError e)
    (hval : sessionValidationCheck d = .dataError e) :
    method_wrapper status meth (some d) = .ok (asDictResp e, BAD_REQUEST) ∧
    sessionPost takenEmails d = .ok (.errors e, BAD_REQUEST) ∧
    sessionPut st d = .ok (.errors e, BAD_REQUEST, st) := by
  refine ⟨?_, ?_, ?_⟩
  · simp [method_wrapper, hmeth]
  · simp [sessionPost, hval]
  · simp [sessionPut, hval]

theorem C6_validation_error_response_witness :
    method_wrapper ACCEPTED (fun _ => .dataError [("email", emailErrMsg)])
        (some [("email", JVal.str "noat")]) =
      .ok (asDictResp [("email", emailErrMsg)], BAD_REQUEST) ∧
    sessionPost [] [("email", JVal.str "noat")] =
      .ok (.errors [("email", emailErrMsg)], BAD_REQUEST) ∧
    sessionPut ⟨[], [], [], [], none, []⟩ [("email", JVal.str "noat")] =
      .ok (.errors [("email", emailErrMsg)], BAD_REQUEST,
        ⟨[], [], [], [], none, []⟩) :=
  C6_validation_error_response ACCEPTED
    (fun _ => .dataError [("email", emailErrMsg)])
    [("email", JVal.str "noat")] [("email", emailErrMsg)] []
    ⟨[], [], [], [], none, []⟩ rfl (by decide)

/-! ## `ProfileResource` put-validation pipeline (`account/api.py`)

`set_put_validation_dict(id)` builds a trafaret `Dict` with required
string keys, an optional `role_id`, the `KeysSubset('password',
'confirmation')` routed through `_cmp_pwds`, and `.append(self._change_role(id))`
— trafaret `append` composes with `And`, so `_change_role` runs on the
value once the key checks succeed.  `_change_role` calls `get_object(id)`
and can MUTATE persisted state (append a role to the user; confirm and
save a user on the token path) while validating. -/

structure ProfUser where
  id : Nat
  roles : List Nat
  confirmed : Bool
  deriving Repr, DecidableEq

/-- Profile-side persisted state: the user table, the `Role` table (the
existing role ids) and the valid e-mail confirmation tokens
(`confirm_email_token_status`, an external collaborator, maps any other
token to no user). -/
structure ProfileSt where
  users : List ProfUser
  roleTable : List Nat
  confirmTokens : List (String × Nat)
  deriving Repr, DecidableEq

structure ProfileCtx where
  currentSuperuser : Bool
  gUserId : Option Nat
  deriving Repr, DecidableEq

/-- `ProfileResource.get_object(id)`: with a `token` in the request body
the token's user is confirmed, saved and logged in (a state mutation); a
superuser fetches by id (`get_or_404`); anyone else gets `g.user`;
`None` aborts 404. -/
def profileGetObject (ctx : ProfileCtx) (st : ProfileSt) (reqJson : JObj)
    (id : Nat) : PyResult (ProfUser × ProfileSt) :=
  match jget reqJson "token" with
  | some (JVal.str tok) =>
    match st.confirmTokens.find? (fun p => p.1 = tok) with
    | none => .exn
    | some tp =>
      match st.users.find? (fun u => u.id = tp.2) with
      | none => .exn
      | some u =>
        .ok ({ u with confirmed := true },
          { st with users := st.users.map (fun x =>
            if x.id = u.id then { x with confirmed := true } else x) })
  | some _ => .exn
  | none =>
    if ctx.currentSuperuser then
      match st.users.find? (fun u => u.id = id) with
      | none => .aborted NOT_FOUND
      | some u => .ok (u, st)
    else
      match ctx.gUserId with
      | none => .aborted NOT_FOUND
      | some gid =>
        match st.users.find? (fun u => u.id = gid) with
        | none => .aborted NOT_FOUND
        | some u => .ok (u, st)

/-- `ProfileResource._change_role(id)`'s wrapper: fetch the target user;
with a `role_id` in the value, `Role.query.get_or_404` it; a role the
user already has passes; a superuser appends the role to the user's
roles (mutating the user table) and passes; anyone else is aborted with
403. -/
def change_role (ctx : ProfileCtx) (st : ProfileSt) (reqJson : JObj)
    (id : Nat) (value : JObj) : PyResult (JObj × ProfileSt) :=
  match profileGetObject ctx st reqJson id with
  | .ok us =>
    match jget value "role_id" with
    | none => .ok (value, us.2)
    | some (JVal.nat rid) =>
      if us.2.roleTable.contains rid then
        if us.1.roles.contains rid then .ok (value, us.2)
        else if ctx.currentSuperuser then
          .ok (value, { us.2 with users := us.2.users.map (fun x =>
            if x.id = us.1.id then { x with roles := x.roles ++ [rid] }
            else x) })
        else .aborted FORBIDDEN
      else .aborted NOT_FOUND
    | some _ => .aborted NOT_FOUND
  | .dataError e => .dataError e
  | .aborted s => .aborted s
  | .exn => .exn

def requiredMsg : String := "is required"

def intErrMsg : String := "value cant be converted to int"

/-- One required key of type `t.String`. -/
def checkStr (d : JObj) (k : String) : List (String × String) :=
  match jget d k with
  | some (JVal.str _) => []
  | some _ => [(k, strErrMsg)]
  | none => [(k, requiredMsg)]

/-- One optional key of type `t.Int`. -/
def checkOptNat (d : JObj) (k : String) : List (String × String) :=
  match jget d k with
  | some (JVal.nat _) => []
  | some _ => [(k, intErrMsg)]
  | none => []

/-- The `KeysSubset('password', 'confirmation')` slice run through
`_cmp_pwds`: absent-password-with-confirmation and non-string passwords
hit `len(value['password'])` (KeyError / TypeError); a string password
compared against a non-string confirmation is simply unequal. -/
def profilePwCheck (d : JObj) : PyResult (List (String × PwFieldVal)) :=
  match jget d "password", jget d "confirmation" with
  | none, none => cmp_pwds ⟨none, none⟩
  | none, some _ => .exn
  | some (JVal.str p), none => cmp_pwds ⟨some p, none⟩
  | some (JVal.str p), some (JVal.str c) => cmp_pwds ⟨some p, some c⟩
  | some (JVal.str p), some _ =>
    if p.length < 6 then .ok [("password", .dataError pwLenMsg)]
    else .ok [("confirmation", .dataError pwMatchMsg)]
  | some _, _ => .exn

def profileValidationKeys : List String :=
  ["first_name", "last_name", "phone", "fax", "company", "role_id"]

/-- The key-checking part of the profile put-validation `Dict`:
`first_name`, `last_name`, `phone`, `fax`, `company` required strings,
`role_id` optional int, the password subset through `_cmp_pwds`, extra
keys ignored; failing keys collect into one `DataError`. -/
def profileCleanKeys (d : JObj) : PyResult JObj :=
  match profilePwCheck d with
  | .ok pw =>
    let errs :=
      checkStr d "first_name" ++ checkStr d "last_name" ++
      checkStr d "phone" ++ checkStr d "fax" ++ checkStr d "company" ++
      checkOptNat d "role_id" ++
      pw.filterMap (fun p =>
        match p.2 with
        | .dataError m => some (p.1, m)
        | .plain _ => none)
    match errs with
    | [] =>
      .ok (d.filter (fun p => profileValidationKeys.contains p.1) ++
        pw.filterMap (fun p =>
          match p.2 with
          | .plain s => some (p.1, JVal.str s)
          | _ => none))
    | _ => .dataError errs
  | .dataError e => .dataError e
  | .aborted s => .aborted s
  | .exn => .exn

/-- The whole put-validation (`self.clean(data)`): the `Dict` key checks,
then — only on success, `append` being trafaret `And` — the
`_change_role` check, which may mutate state. -/
def profileClean (ctx : ProfileCtx) (st : ProfileSt) (reqJson : JObj)
    (id : Nat) : PyResult (JObj × ProfileSt) :=
  match profileCleanKeys reqJson with
  | .ok cleaned => change_role ctx st reqJson id cleaned
  | .dataError e => .dataError e
  | .aborted s => .aborted s
  | .exn => .exn

/-! ## `CustomerResource.put` (`account/api.py`) -/

def customerValidationKeys : List String :=
  ["first_name", "last_name", "email", "phone", "notes", "fax", "company",
   "gender", "birth_date", "direct_debit", "swift", "account_number", "blz"]

/-- One optional key of type `t.String`. -/
def checkOptStr (d : JObj) (k : String) : List (String × String) :=
  match jget d k with
  | some (JVal.str _) => []
  | some _ => [(k, strErrMsg)]
  | none => []

/-- One optional key of type `t.Or(t.String, t.Null)`. -/
def checkOptStrOrNull (d : JObj) (k : String) : List (String × String) :=
  match jget d k with
  | some v => if isStrOrNull v then [] else [(k, strErrMsg)]
  | none => []

/-- `CustomerResource.validation.check`: required `first_name`,
`last_name`, `email` (Email) and `gender`; optional (`make_optional`)
`phone`, `notes` (string or null), `fax`, `company`, `birth_date`
(modelled as a string-typed date), `direct_debit` (bool), `swift`,
`account_number` and `blz`; extra keys ignored. -/
def customerValidationCheck (d : JObj) : PyResult JObj :=
  let errs :=
    checkStr d "first_name" ++ checkStr d "last_name" ++
    (match jget d "email" with
     | some v => if isEmailVal v then [] else [("email", emailErrMsg)]
     | none => [("email", requiredMsg)]) ++
    checkOptStr d "phone" ++ checkOptStrOrNull d "notes" ++
    checkOptStr d "fax" ++ checkOptStr d "company" ++
    checkStr d "gender" ++ checkOptStr d "birth_date" ++
    (match jget d "direct_debit" with
     | some v => if isBoolVal v then [] else [("direct_debit", boolErrMsg)]
     | none => []) ++
    checkOptStr d "swift" ++ checkOptStr d "account_number" ++
    checkOptStr d "blz"
  match errs with
  | [] => .ok (d.filter (fun p => customerValidationKeys.contains p.1))
  | _ => .dataError errs

/-- The customer table: id → stored fields. -/
structure CustomerTableSt where
  rows : List (Nat × JObj)
  deriving Repr, DecidableEq

/-- `CustomerResource.put(id)`: `_request_data` (body or abort 400, then
`clean`), `get_object(id)` (get_or_404, spec-modelled base resource),
`update(**data)` merging the validated fields into the row, serialize
with 202; a `DataError` is answered as its `as_dict()` with 400 and the
table untouched. -/
def customerPut (st : CustomerTableSt) (reqJson : Option JObj) (id : Nat) :
    PyResult (RespBody × Nat × CustomerTableSt) :=
  match reqJson with
  | none => .aborted BAD_REQUEST
  | some d =>
    match customerValidationCheck d with
    | .dataError e => .ok (.errors e, BAD_REQUEST, st)
    | .aborted s => .aborted s
    | .exn => .exn
    | .ok data =>
      match st.rows.find? (fun r => r.1 = id) with
      | none => .aborted NOT_FOUND
      | some row =>
        .ok (.obj (data ++ row.2), ACCEPTED,
          ⟨st.rows.map (fun r =>
            if r.1 = id then (r.1, data ++ row.2) else r)⟩)

/-- C2: the claim asserts that validation itself performs no state
mutation; it fails on `ProfileResource`: a superuser putting a valid body
with a fresh `role_id` makes the validation pipeline (`_change_role`
inside the validation `Dict`) append the role to the target user's roles
— `profileClean` succeeds AND returns a changed user table. -/
theorem C2_validation_mutation_counterexample :
    profileClean ⟨true, some 1⟩ ⟨[⟨1, [], true⟩], [5], []⟩
      [("first_name", JVal.str "a"), ("last_name", JVal.str "b"),
       ("phone", JVal.str "p"), ("fax", JVal.str "f"),
       ("company", JVal.str "c"), ("role_id", JVal.nat 5)] 1 =
      .ok ([("first_name", JVal.str "a"), ("last_name", JVal.str "b"),
        ("phone", JVal.str "p"), ("fax", JVal.str "f"),
        ("company", JVal.str "c"), ("role_id", JVal.nat 5)],
        ⟨[⟨1, [5], true⟩], [5], []⟩) ∧
    (⟨[⟨1, [5], true⟩], [5], []⟩ : ProfileSt) ≠
      ⟨[⟨1, [], true⟩], [5], []⟩ := by
  decide

/-- C2 (amended): for `CustomerResource.put`, a body that fails schema
validation is answered with the field-level error mapping and 400, and
the customer table is returned unchanged — no ORM update happens; the
mutation-free guarantee does NOT extend to validation itself, which on
`ProfileResource` can append a role or confirm a user while validating. -/
theorem C2_customer_put_validation_failure (st : CustomerTableSt)
    (d : JObj) (id : Nat) (e : List (String × String))
    (hval : customerValidationCheck d = .dataError e) :
    customerPut st (some d) id = .ok (.errors e, BAD_REQUEST, st) := by
  simp [customerPut, hval]

theorem C2_customer_put_validation_failure_witness :
    customerPut ⟨[(1, [])]⟩ (some []) 1 =
      .ok (.errors [("first_name", requiredMsg), ("last_name", requiredMsg),
        ("email", requiredMsg), ("gender", requiredMsg)],
        BAD_REQUEST, ⟨[(1, [])]⟩) :=
  C2_customer_put_validation_failure ⟨[(1, [])]⟩ [] 1
    [("first_name", requiredMsg), ("last_name", requiredMsg),
     ("email", requiredMsg), ("gender", requiredMsg)] (by decide)

theorem C5_profile_serialize_witness :
    "password" ∉ profileSerializeKeys ⟨1, false, true, true, true, true⟩
      ⟨2, false, false, true, true, true⟩ ∧
    ("email" ∈ profileSerializeKeys ⟨1, false, true, true, true, true⟩
        ⟨2, false, false, true, true, true⟩ ↔
      (1 : Nat) = 2 ∨ true = true) :=
  ⟨(C5_profile_serialize ⟨1, false, true, true, true, true⟩
      ⟨2, false, false, true, true, true⟩).1,
   (C5_profile_serialize ⟨1, false, true, true, true, true⟩
      ⟨2, false, false, true, true, true⟩).2 rfl rfl⟩
